import Mathlib

/-!
Verification development for the stock-report proxy server (`src/server.py`).

The resilient-fetch layer and the aggregation logic are embedded shallowly:
Python dictionaries parsed from JSON become the inductive `JVal`; each
provider interaction is injected as a function from the attempt index to the
outcome the provider produces on that attempt; Python exceptions that escape
a function are modelled with `Except PyExc`.  Sleeps and attempt counts are
recorded in explicit traces so that retry behaviour is provable.
-/

/-- A JSON-like value, the shape of the dictionaries the server manipulates. -/
inductive JVal where
  | str : String → JVal
  | obj : List (String × JVal) → JVal
  | arr : List JVal → JVal

/-- Key lookup in a JSON object (Python `d[k]` / `k in d`); `none` elsewhere. -/
def JVal.lookup : JVal → String → Option JVal
  | .obj l, k => l.lookup k
  | _, _ => none

/-- Python `k in d` for a dict. -/
def JVal.hasKey (d : JVal) (k : String) : Bool :=
  (d.lookup k).isSome

/-- Python `d.get(k, dflt)`. -/
def JVal.getD (d : JVal) (k : String) (dflt : JVal) : JVal :=
  (d.lookup k).getD dflt

/-- Python truthiness of a JSON value: empty strings, lists, dicts are falsy. -/
def JVal.truthy : JVal → Bool
  | .str s => s != ""
  | .obj l => !l.isEmpty
  | .arr l => !l.isEmpty

/-- Whether the list `needle` occurs as a contiguous sublist of `hay`. -/
def listHasSublist (needle hay : List Char) : Bool :=
  hay.tails.any (fun t => needle.isPrefixOf t)

/-- Python `needle in hay` for strings: contiguous substring test. -/
def strContains (hay needle : String) : Bool :=
  listHasSublist needle.data hay.data

/-- Python `needle in hay.lower()`: the haystack is lower-cased character by
character before the substring test. -/
def lowerHas (hay needle : String) : Bool :=
  listHasSublist needle.data (hay.data.map Char.toLower)

/-- The error taxonomy of the spec's Result Normalizer.  Each constructor
corresponds to one `return {"error": ...}` site of the source (plus
`unexpectedError` for the catch-all `except Exception` site). -/
inductive ErrorKind where
  | notConfigured
  | rateLimited
  | networkError
  | providerError
  | malformedResponse
  | retriesExhausted
  | unexpectedError
deriving DecidableEq, Repr

/-- Normalized outcome of one provider call (`Success{payload}` or
`Failure{kind, message}`); the failure message is the string the Python code
places under the `"error"` key. -/
inductive CallResult where
  | success : JVal → CallResult
  | failure : ErrorKind → String → CallResult

/-- What the Alpha Vantage transport yields on one attempt: a parsed JSON
body, a `requests.exceptions.RequestException`, or some other exception. -/
inductive AVAttempt where
  | response : JVal → AVAttempt
  | requestError : String → AVAttempt
  | otherError : String → AVAttempt

/-- `max_retries = 5` in both clients. -/
def MAX_RETRIES : Nat := 5

/-- `initial_delay = 1` (seconds) in both clients. -/
def INITIAL_DELAY : Nat := 1

/-- The Backoff Policy: `initial_delay * (2 ** i)`, the expression both
clients sleep between attempts. -/
def backoffDelay (d0 : Nat) (attempt : Nat) : Nat :=
  d0 * 2 ^ attempt

/-- Observable trace of one client invocation: how many outbound attempts
were issued, which sleep durations were executed (in order), and the value
returned. -/
structure FetchTrace where
  attempts : Nat
  sleeps : List Nat
  result : CallResult

/-- What one loop iteration of `fetch_alpha_vantage_data` decides to do. -/
inductive AttemptAct where
  | retry : Nat → AttemptAct
  | done : CallResult → AttemptAct

/-- Classification of a parsed Alpha Vantage body on attempt `i`
(`src/server.py` lines 65-77).  A non-string `"Error Message"` or
`"Information"` value would make `.lower()` raise; the broad
`except Exception` then returns the unexpected-error dict. -/
def avClassify (d : JVal) (i : Nat) : AttemptAct :=
  match d.lookup "Error Message" with
  | some (.str m) =>
      if lowerHas m "rate limit" then .retry (backoffDelay INITIAL_DELAY i)
      else .done (.failure .providerError m)
  | some _ => .done (.failure .unexpectedError
      "An unexpected error occurred during Alpha Vantage API call: AttributeError")
  | none =>
    match d.lookup "Information" with
    | some (.str m) =>
        if lowerHas m "rate limit" then .done (.failure .rateLimited m)
        else .done (.success d)
    | some _ => .done (.failure .unexpectedError
        "An unexpected error occurred during Alpha Vantage API call: AttributeError")
    | none => .done (.success d)

/-- The retry loop of `fetch_alpha_vantage_data` (`for i in range(max_retries)`),
with `fuel` iterations remaining and `i` the current attempt index.  A
`RequestException` sleeps the backoff delay and falls through to the next
iteration; any other exception returns the unexpected-error dict at once. -/
def fetchAVLoop (provider : Nat → AVAttempt) : Nat → Nat → FetchTrace
  | 0, _ =>
      { attempts := 0, sleeps := [], result := .failure .retriesExhausted
          "Max retries exceeded for Alpha Vantage API call due to rate limits or network issues." }
  | fuel + 1, i =>
    match provider i with
    | .response d =>
      match avClassify d i with
      | .done r => { attempts := 1, sleeps := [], result := r }
      | .retry t =>
          let rest := fetchAVLoop provider fuel (i + 1)
          { attempts := rest.attempts + 1, sleeps := t :: rest.sleeps, result := rest.result }
    | .requestError _ =>
        let rest := fetchAVLoop provider fuel (i + 1)
        { attempts := rest.attempts + 1,
          sleeps := backoffDelay INITIAL_DELAY i :: rest.sleeps,
          result := rest.result }
    | .otherError e =>
        { attempts := 1, sleeps := [], result := .failure .unexpectedError
            ("An unexpected error occurred during Alpha Vantage API call: " ++ e) }

/-- `fetch_alpha_vantage_data` (`src/server.py` lines 45-84).  `configured`
models whether `ALPHA_VANTAGE_API_KEY` is set; `provider` is the stubbed
transport, one outcome per attempt index. -/
def fetch_alpha_vantage_data (configured : Bool) (provider : Nat → AVAttempt) : FetchTrace :=
  if configured then fetchAVLoop provider MAX_RETRIES 0
  else { attempts := 0, sleeps := [], result := .failure .notConfigured
           "Alpha Vantage API key is not configured in the server." }

/-- Python exceptions that escape a modelled function uncaught:
`TypeError` (from `None + str` and dict slicing) and `NameError` (from the
unbound name `retries` at `src/server.py` line 131). -/
inductive PyExc where
  | typeError
  | nameError
deriving DecidableEq, Repr

/-- The `content` object of a Gemini candidate; truthiness of `.parts` is
what the source inspects. -/
structure GeminiContent where
  parts : List String

/-- One Gemini candidate; `content` may be absent (falsy). -/
structure GeminiCandidate where
  content : Option GeminiContent

/-- A Gemini response delivered without exception: the candidate structure
plus the `response.text` payload. -/
structure GeminiResponse where
  candidates : List GeminiCandidate
  text : String

/-- What one Gemini attempt produces: a response object, or an exception
whose `str(e)` is carried. -/
inductive GeminiAttempt where
  | response : GeminiResponse → GeminiAttempt
  | exn : String → GeminiAttempt

/-- The guard `response.candidates and response.candidates[0].content and
response.candidates[0].content.parts` (`src/server.py` line 125). -/
def geminiHasContent (r : GeminiResponse) : Bool :=
  match r.candidates with
  | [] => false
  | c :: _ =>
    match c.content with
    | none => false
    | some ct => !ct.parts.isEmpty

/-- The retry loop of `generate_gemini_content` (`src/server.py` lines
97-138).  On an exception mentioning "quota" the loop sleeps and retries; on
one mentioning "rate limit" but not "quota" the condition evaluates the
unbound name `retries` and the resulting `NameError` propagates out of the
function; otherwise the error dict is returned at once. -/
def geminiLoop (provider : Nat → GeminiAttempt) : Nat → Nat → Except PyExc FetchTrace
  | 0, _ =>
      .ok { attempts := 0, sleeps := [], result := .failure .retriesExhausted
              "Max retries exceeded for Gemini API call due to rate limits or network issues." }
  | fuel + 1, i =>
    match provider i with
    | .response r =>
        if geminiHasContent r then
          .ok { attempts := 1, sleeps := [], result := .success (.str r.text) }
        else
          .ok { attempts := 1, sleeps := [], result := .failure .malformedResponse
                  "Gemini API response was empty or malformed." }
    | .exn e =>
        if lowerHas e "quota" then
          match geminiLoop provider fuel (i + 1) with
          | .ok rest =>
              .ok { attempts := rest.attempts + 1,
                    sleeps := backoffDelay INITIAL_DELAY i :: rest.sleeps,
                    result := rest.result }
          | .error ex => .error ex
        else if lowerHas e "rate limit" then
          .error .nameError
        else
          .ok { attempts := 1, sleeps := [], result := .failure .providerError
                  ("An unexpected error occurred during AI content generation: " ++ e) }

/-- `generate_gemini_content` (`src/server.py` lines 87-138).  `configured`
models whether `GEMINI_API_KEY` is set. -/
def generate_gemini_content (configured : Bool) (provider : Nat → GeminiAttempt) :
    Except PyExc FetchTrace :=
  if configured then geminiLoop provider MAX_RETRIES 0
  else .ok { attempts := 0, sleeps := [], result := .failure .notConfigured
               "Gemini API key is not configured in the server." }

mutual

/-- Python `repr` of a JSON value, as an f-string renders a non-string. -/
def reprJ : JVal → String
  | .str s => "\x27" ++ s ++ "\x27"
  | .arr l => "[" ++ String.intercalate ", " (reprJList l) ++ "]"
  | .obj l => "\x7b" ++ String.intercalate ", " (reprJFields l) ++ "\x7d"

/-- `repr` of the elements of a JSON array. -/
def reprJList : List JVal → List String
  | [] => []
  | x :: xs => reprJ x :: reprJList xs

/-- `repr` of the fields of a JSON object. -/
def reprJFields : List (String × JVal) → List String
  | [] => []
  | (k, v) :: xs => ("\x27" ++ k ++ "\x27: " ++ reprJ v) :: reprJFields xs

end

/-- Python f-string interpolation of a JSON value: a string renders as
itself, anything else as its `repr`. -/
def fstr : JVal → String
  | .str s => s
  | v => reprJ v

/-- `report_data['error'] = report_data.get('error', '') + f"<label>: <msg>. "`
(`src/server.py` lines 265/273/281/289).  The `'error'` key is present with
value `None`, so `.get` returns `None` and `None + str` raises `TypeError`
on the first failing sub-call. -/
def appendErr (cur : Option String) (label : String) (msg : JVal) : Except PyExc String :=
  match cur with
  | none => .error .typeError
  | some s => .ok (s ++ label ++ ": " ++ fstr msg ++ ". ")

/-- Python slicing `v[:n]`: lists and strings slice, a dict raises
`TypeError` (unhashable slice). -/
def pySlice (n : Nat) : JVal → Except PyExc JVal
  | .arr l => .ok (.arr (l.take n))
  | .str s => .ok (.str (String.mk (s.data.take n)))
  | .obj _ => .error .typeError

/-- The `report_data` dictionary built by `get_full_stock_report`
(`src/server.py` lines 252-259), with its initial values. -/
structure ReportData where
  symbol : String
  global_quote : JVal
  overview : JVal
  income_statement : JVal
  earnings : JVal
  error : Option String

/-- Setting a key of a JSON object (Python `d[k] = v`): an existing key is
overwritten in place, a new key is appended. -/
def JVal.setKey (d : JVal) (k : String) (v : JVal) : JVal :=
  match d with
  | .obj l =>
      if l.lookup k |>.isSome then
        .obj (l.map (fun p => if p.1 == k then (k, v) else p))
      else .obj (l ++ [(k, v)])
  | other => other

/-- What the route returns: the 404 error body, or the report body. -/
inductive ReportOutcome where
  | failureResp : String → ReportOutcome
  | successResp : ReportData → ReportOutcome

/-- `get_full_stock_report` (`src/server.py` lines 247-301) after ticker
sanitisation, taking the four values `fetch_alpha_vantage_data` returned for
quote, overview, income statement and earnings.  An uncaught Python
exception surfaces as `Except.error`. -/
def get_full_stock_report (symbol : String)
    (quote_data overview_data income_data earnings_data : JVal) :
    Except PyExc ReportOutcome := do
  let r0 : ReportData :=
    { symbol := symbol, global_quote := .obj [], overview := .obj [],
      income_statement := .arr [], earnings := .obj [], error := none }
  -- 1. Fetch Global Quote
  let r1 ←
    if quote_data.hasKey "error" then do
      let e ← appendErr r0.error "Quote Error" (quote_data.getD "error" (.obj []))
      pure { r0 with error := some e }
    else
      pure { r0 with global_quote := quote_data.getD "Global Quote" (.obj []) }
  -- 2. Fetch Company Overview
  let r2 ←
    if overview_data.hasKey "error" then do
      let e ← appendErr r1.error "Overview Error" (overview_data.getD "error" (.obj []))
      pure { r1 with error := some e }
    else
      pure { r1 with overview := overview_data }
  -- 3. Fetch Income Statement (last few annual reports)
  let r3 ←
    if income_data.hasKey "error" then do
      let e ← appendErr r2.error "Income Statement Error" (income_data.getD "error" (.obj []))
      pure { r2 with error := some e }
    else do
      let v ← pySlice 3 (income_data.getD "annualReports" (.arr []))
      pure { r2 with income_statement := v }
  -- 4. Fetch Earnings (Annual)
  let r4 ←
    if earnings_data.hasKey "error" then do
      let e ← appendErr r3.error "Earnings Error" (earnings_data.getD "error" (.obj []))
      pure { r3 with error := some e }
    else do
      let v ← pySlice 3 (earnings_data.getD "annualEarnings" (.arr []))
      pure { r3 with earnings := r3.earnings.setKey "annualReports" v }
  -- Check for primary data presence
  if !r4.global_quote.truthy && !r4.overview.truthy then
    let finalError :=
      match r4.error with
      | none => "Stock ticker not found or no data available from Alpha Vantage."
      | some s => if s == "" then "Stock ticker not found or no data available from Alpha Vantage." else s
    -- `report_data['error'] or final_error`
    let propagated :=
      match r4.error with
      | none => finalError
      | some s => if s == "" then finalError else s
    pure (.failureResp propagated)
  else
    pure (.successResp r4)

/-- A rate-limit Alpha Vantage error body, as the provider sends it. -/
def rlBody : JVal :=
  .obj [("Error Message", .str "Our standard API rate limit is 25 requests per day.")]

/-- A non-rate-limit Alpha Vantage error body. -/
def badCallBody : JVal :=
  .obj [("Error Message", .str "Invalid API call. Please visit the documentation.")]

/-- An Alpha Vantage body whose `Information` field signals a rate limit and
which carries no `Error Message` field. -/
def infoBody : JVal :=
  .obj [("Information", .str "API rate limit is 25 requests per day.")]

/-- A successful GLOBAL_QUOTE body. -/
def quoteOK : JVal :=
  .obj [("Global Quote", .obj [("05. price", .str "123.45")])]

/-- A successful OVERVIEW body. -/
def overviewOK : JVal :=
  .obj [("Name", .str "International Business Machines")]

/-- A successful INCOME_STATEMENT body with five annual reports. -/
def incomeOK : JVal :=
  .obj [("annualReports", .arr [.str "y1", .str "y2", .str "y3", .str "y4", .str "y5"])]

/-- A successful EARNINGS body with four annual earnings entries. -/
def earningsOK : JVal :=
  .obj [("annualEarnings", .arr [.str "e1", .str "e2", .str "e3", .str "e4"])]

/-- The error dictionary `fetch_alpha_vantage_data` hands back on failure. -/
def errDict : JVal := .obj [("error", .str "boom")]

/-- The sleeps executed by `fetchAVLoop` when every attempt retries,
starting from attempt index `i` with `fuel` iterations left. -/
def geomSleeps (i : Nat) : Nat → List Nat
  | 0 => []
  | fuel + 1 => backoffDelay INITIAL_DELAY i :: geomSleeps (i + 1) fuel

theorem fetchAVLoop_all_rate_limit (provider : Nat → AVAttempt) (body : JVal) (m : String)
    (hp : ∀ i, provider i = .response body)
    (hm : body.lookup "Error Message" = some (.str m))
    (hrl : lowerHas m "rate limit" = true) :
    ∀ fuel i, fetchAVLoop provider fuel i =
      { attempts := fuel, sleeps := geomSleeps i fuel,
        result := .failure .retriesExhausted
          "Max retries exceeded for Alpha Vantage API call due to rate limits or network issues." } := by
  intro fuel
  induction fuel with
  | zero => intro i; simp [fetchAVLoop, geomSleeps]
  | succ n ih =>
      intro i
      simp [fetchAVLoop, hp i, avClassify, hm, hrl, ih (i + 1), geomSleeps]

/-- Claim C4: for every attempt count `a < 5`, the Backoff Policy delay is
`base * 2 ^ a` with base delay 1, and the delay sequence is strictly
increasing in the attempt count. -/
theorem backoff_policy_exponential (a : Nat) (ha : a < MAX_RETRIES) :
    backoffDelay INITIAL_DELAY a = 2 ^ a ∧
    ∀ b, b < MAX_RETRIES → a < b →
      backoffDelay INITIAL_DELAY a < backoffDelay INITIAL_DELAY b := by
  constructor
  · simp [backoffDelay, INITIAL_DELAY]
  · intro b _ hab
    simp only [backoffDelay, INITIAL_DELAY, one_mul]
    exact Nat.pow_lt_pow_right (by norm_num) hab

/-- Witness for C4 at attempt counts 3 and 4. -/
theorem backoff_policy_exponential_witness :
    (3 : Nat) < MAX_RETRIES ∧ backoffDelay INITIAL_DELAY 3 = 2 ^ 3 ∧
      backoffDelay INITIAL_DELAY 3 < backoffDelay INITIAL_DELAY 4 :=
  ⟨by decide, (backoff_policy_exponential 3 (by decide)).1,
    (backoff_policy_exponential 3 (by decide)).2 4 (by decide) (by decide)⟩

/-- Claim C5: a Provider Client whose credential is absent returns the
not-configured failure at once: zero outbound attempts, zero sleeps, and no
exception escapes. -/
theorem missing_credential_no_attempt (pA : Nat → AVAttempt) (pG : Nat → GeminiAttempt) :
    fetch_alpha_vantage_data false pA =
      { attempts := 0, sleeps := [], result := .failure .notConfigured
          "Alpha Vantage API key is not configured in the server." } ∧
    generate_gemini_content false pG =
      .ok { attempts := 0, sleeps := [], result := .failure .notConfigured
              "Gemini API key is not configured in the server." } :=
  ⟨rfl, rfl⟩

/-- Witness for C5 at concrete stub providers. -/
theorem missing_credential_no_attempt_witness :
    fetch_alpha_vantage_data false (fun _ => .response rlBody) =
      { attempts := 0, sleeps := [], result := .failure .notConfigured
          "Alpha Vantage API key is not configured in the server." } ∧
    generate_gemini_content false (fun _ => .exn "boom") =
      .ok { attempts := 0, sleeps := [], result := .failure .notConfigured
              "Gemini API key is not configured in the server." } :=
  missing_credential_no_attempt (fun _ => .response rlBody) (fun _ => .exn "boom")

/-- Claim C1: when every attempt yields a body whose `Error Message` field
mentions a rate limit (case-insensitively), `fetch_alpha_vantage_data` makes
exactly `MAX_RETRIES = 5` attempts, sleeps the Backoff Policy delay
`backoffDelay 1 a` after attempt `a` (hence between consecutive attempts),
and returns the max-retries-exceeded failure. -/
theorem rate_limit_error_exhausts_retries (provider : Nat → AVAttempt) (body : JVal) (m : String)
    (hp : ∀ i, provider i = .response body)
    (hm : body.lookup "Error Message" = some (.str m))
    (hrl : lowerHas m "rate limit" = true) :
    fetch_alpha_vantage_data true provider =
      { attempts := MAX_RETRIES,
        sleeps := (List.range MAX_RETRIES).map (backoffDelay INITIAL_DELAY),
        result := .failure .retriesExhausted
          "Max retries exceeded for Alpha Vantage API call due to rate limits or network issues." } := by
  have h := fetchAVLoop_all_rate_limit provider body m hp hm hrl MAX_RETRIES 0
  unfold fetch_alpha_vantage_data
  rw [if_pos rfl, h]
  rfl

/-- Witness for C1: a stub provider always returning `rlBody`. -/
theorem rate_limit_error_exhausts_retries_witness :
    fetch_alpha_vantage_data true (fun _ => .response rlBody) =
      { attempts := MAX_RETRIES,
        sleeps := (List.range MAX_RETRIES).map (backoffDelay INITIAL_DELAY),
        result := .failure .retriesExhausted
          "Max retries exceeded for Alpha Vantage API call due to rate limits or network issues." } :=
  rate_limit_error_exhausts_retries (fun _ => .response rlBody)
    rlBody "Our standard API rate limit is 25 requests per day."
    (fun _ => rfl) rfl (by decide)

/-- Claim C6: a body whose `Error Message` field does not mention a rate
limit makes `fetch_alpha_vantage_data` return the provider-error failure
carrying that text after exactly one attempt, with no sleep and no retry. -/
theorem provider_error_single_attempt (provider : Nat → AVAttempt) (d : JVal) (m : String)
    (hp : provider 0 = .response d)
    (hm : d.lookup "Error Message" = some (.str m))
    (hrl : lowerHas m "rate limit" = false) :
    fetch_alpha_vantage_data true provider =
      { attempts := 1, sleeps := [], result := .failure .providerError m } := by
  unfold fetch_alpha_vantage_data MAX_RETRIES
  rw [if_pos rfl]
  show fetchAVLoop provider (4 + 1) 0 = _
  simp [fetchAVLoop, hp, avClassify, hm, hrl]

/-- Witness for C6 at the invalid-call body. -/
theorem provider_error_single_attempt_witness :
    fetch_alpha_vantage_data true (fun _ => .response badCallBody) =
      { attempts := 1, sleeps := [],
        result := .failure .providerError "Invalid API call. Please visit the documentation." } :=
  provider_error_single_attempt (fun _ => .response badCallBody)
    badCallBody "Invalid API call. Please visit the documentation." rfl rfl (by decide)

/-- Claim C7: a body with no `Error Message` field whose `Information` field
mentions a rate limit makes `fetch_alpha_vantage_data` return the rate-limited
failure carrying that text on the first attempt, with no sleep and no retry. -/
theorem information_rate_limit_immediate (provider : Nat → AVAttempt) (d : JVal) (m : String)
    (hp : provider 0 = .response d)
    (hnoerr : d.lookup "Error Message" = none)
    (hinfo : d.lookup "Information" = some (.str m))
    (hrl : lowerHas m "rate limit" = true) :
    fetch_alpha_vantage_data true provider =
      { attempts := 1, sleeps := [], result := .failure .rateLimited m } := by
  unfold fetch_alpha_vantage_data MAX_RETRIES
  rw [if_pos rfl]
  show fetchAVLoop provider (4 + 1) 0 = _
  simp [fetchAVLoop, hp, avClassify, hnoerr, hinfo, hrl]

/-- Witness for C7 at the informational rate-limit body. -/
theorem information_rate_limit_immediate_witness :
    fetch_alpha_vantage_data true (fun _ => .response infoBody) =
      { attempts := 1, sleeps := [],
        result := .failure .rateLimited "API rate limit is 25 requests per day." } :=
  information_rate_limit_immediate (fun _ => .response infoBody)
    infoBody "API rate limit is 25 requests per day." rfl rfl rfl (by decide)

/-- A Gemini response whose content structure is present but empty. -/
def emptyResp : GeminiResponse :=
  { candidates := [{ content := some { parts := [] } }], text := "" }

/-- Claim C3 (refuted by the code): an exception whose text mentions
rate-limiting but not quota is supposed to sleep and retry, but the retry
condition at `src/server.py` line 131 evaluates the unbound name `retries`,
so a `NameError` escapes `generate_gemini_content` instead.  An exception
mentioning neither quota nor rate-limiting does return the provider-error
dict immediately, as the spec says. -/
theorem gemini_rate_limit_exception_raises_name_error :
    lowerHas "429 Rate limit exceeded" "quota" = false ∧
    lowerHas "429 Rate limit exceeded" "rate limit" = true ∧
    generate_gemini_content true (fun _ => .exn "429 Rate limit exceeded") =
      .error .nameError ∧
    generate_gemini_content true (fun _ => .exn "Deadline expired") =
      .ok { attempts := 1, sleeps := [], result := .failure .providerError
              "An unexpected error occurred during AI content generation: Deadline expired" } := by
  refine ⟨by decide, by decide, ?_, ?_⟩ <;> rfl

/-- Claim C8: a Gemini response that arrives without exception is declared a
success (with `response.text` as payload) exactly when its
candidate/content/parts structure is non-empty; when that structure is empty
the malformed-response failure is returned instead. -/
theorem gemini_success_requires_content (provider : Nat → GeminiAttempt) (r : GeminiResponse)
    (hp : provider 0 = .response r) :
    (generate_gemini_content true provider =
        .ok { attempts := 1, sleeps := [], result := .success (.str r.text) }
      ↔ geminiHasContent r = true) ∧
    (geminiHasContent r = false →
      generate_gemini_content true provider =
        .ok { attempts := 1, sleeps := [], result := .failure .malformedResponse
                "Gemini API response was empty or malformed." }) := by
  unfold generate_gemini_content MAX_RETRIES
  rw [if_pos rfl]
  show (geminiLoop provider (4 + 1) 0 = _ ↔ _) ∧ _
  cases hc : geminiHasContent r with
  | true => simp [geminiLoop, hp, hc]
  | false => simp [geminiLoop, hp, hc]

/-- Witness for C8: the stub response with an empty parts list yields the
malformed-response failure, never a success. -/
theorem gemini_success_requires_content_witness :
    (generate_gemini_content true (fun _ => .response emptyResp) =
        .ok { attempts := 1, sleeps := [], result := .success (.str emptyResp.text) }
      ↔ geminiHasContent emptyResp = true) ∧
    (geminiHasContent emptyResp = false →
      generate_gemini_content true (fun _ => .response emptyResp) =
        .ok { attempts := 1, sleeps := [], result := .failure .malformedResponse
                "Gemini API response was empty or malformed." }) :=
  gemini_success_requires_content (fun _ => .response emptyResp) emptyResp rfl

/-- Claim C2 (refuted by the code): when a sub-call fails, the aggregator is
supposed to append a labelled string to the error narrative, but
`report_data.get('error', '')` returns the stored `None` (the key is
present), so `None + str` raises `TypeError` at the first failing sub-call
and no aggregate is ever reported with a non-empty narrative.  Only the
all-sub-calls-succeed paths work: with every section empty the generic
ticker-not-found failure is returned, as the claim says. -/
theorem aggregator_failure_branch_crashes :
    get_full_stock_report "IBM" errDict overviewOK incomeOK earningsOK = .error .typeError ∧
    get_full_stock_report "IBM" (.obj []) (.obj []) (.obj []) (.obj []) =
      .ok (.failureResp "Stock ticker not found or no data available from Alpha Vantage.") := by
  exact ⟨rfl, rfl⟩

/-- Claim C10 (refuted by the code on its failure clause): a successful
earnings sub-call stores the first three annual-earnings entries under the
nested `annualReports` key, but a failing earnings sub-call does not leave
the earnings section as the empty mapping: appending its narrative entry
raises `TypeError`, so no report is produced at all. -/
theorem earnings_truncation_and_failure_crash :
    get_full_stock_report "IBM" quoteOK overviewOK incomeOK earningsOK =
      .ok (.successResp
        { symbol := "IBM", global_quote := .obj [("05. price", .str "123.45")],
          overview := overviewOK,
          income_statement := .arr [.str "y1", .str "y2", .str "y3"],
          earnings := .obj [("annualReports", .arr [.str "e1", .str "e2", .str "e3"])],
          error := none }) ∧
    get_full_stock_report "IBM" quoteOK overviewOK incomeOK errDict = .error .typeError := by
  exact ⟨rfl, rfl⟩

/-- Claim C9: when all four sub-calls succeed and the income-statement body
carries at least three annual reports, the aggregate report stores exactly
the first three of them (and the nested earnings truncation mirrors it). -/
theorem income_statement_truncated_to_three (s : String) (qd od icd ed : JVal)
    (l l2 : List JVal)
    (hq : qd.hasKey "error" = false) (ho : od.hasKey "error" = false)
    (hi : icd.hasKey "error" = false) (he : ed.hasKey "error" = false)
    (hil : icd.lookup "annualReports" = some (.arr l)) (hlen : 3 ≤ l.length)
    (hel : ed.lookup "annualEarnings" = some (.arr l2))
    (hqt : (qd.getD "Global Quote" (.obj [])).truthy = true) :
    get_full_stock_report s qd od icd ed =
      .ok (.successResp
        { symbol := s, global_quote := qd.getD "Global Quote" (.obj []),
          overview := od, income_statement := .arr (l.take 3),
          earnings := .obj [("annualReports", .arr (l2.take 3))], error := none }) ∧
    (l.take 3).length = 3 := by
  have h1 : icd.getD "annualReports" (.arr []) = .arr l := by simp [JVal.getD, hil]
  have h2 : ed.getD "annualEarnings" (.arr []) = .arr l2 := by simp [JVal.getD, hel]
  constructor
  · simp [get_full_stock_report, hq, ho, hi, he, h1, h2, pySlice, JVal.setKey, hqt]
    rfl
  · simp [List.length_take]
    omega

/-- Witness for C9: five annual reports in, the first three retained. -/
theorem income_statement_truncated_to_three_witness :
    get_full_stock_report "IBM" quoteOK overviewOK incomeOK earningsOK =
      .ok (.successResp
        { symbol := "IBM", global_quote := quoteOK.getD "Global Quote" (.obj []),
          overview := overviewOK,
          income_statement := .arr ([.str "y1", .str "y2", .str "y3",
            .str "y4", .str "y5"].take 3),
          earnings := .obj [("annualReports",
            .arr ([.str "e1", .str "e2", .str "e3", .str "e4"].take 3))],
          error := none }) ∧
    ([JVal.str "y1", .str "y2", .str "y3", .str "y4", .str "y5"].take 3).length = 3 :=
  income_statement_truncated_to_three "IBM" quoteOK overviewOK incomeOK earningsOK
    [.str "y1", .str "y2", .str "y3", .str "y4", .str "y5"]
    [.str "e1", .str "e2", .str "e3", .str "e4"]
    rfl rfl rfl rfl rfl (by decide) rfl rfl
